import Mathlib

/-!
Verification development for the DSP core of the mind-wave-viewer-mobile
repository (src/utils/signalFilters.ts, src/utils/advancedFilters.ts and the
professional filter module).

Numeric model: JavaScript `number` values are modelled as exact rationals
(`ℚ`).  The transcendental functions of `Math` (`PI`, `sin`, `cos`, `tan`,
`sinh`, `log`, `sqrt`) have no exact rational counterpart, so every
definition that uses them is parameterised by an abstract `RealOps`
record; theorems quantify over all such records, and concrete witnesses
instantiate it with simple computable rational functions.  Integer-exact
`Math` operations (`abs`, `max`, `min`, `sign`, `floor`) are modelled
directly.  JavaScript arrays are modelled as `List ℚ` and each stateful
filter class becomes a state structure together with a pure step function
`state → input → output × state`.
-/

/-- The abstract interpretation of the transcendental `Math` functions used
by the source (`Math.PI`, `Math.sin`, `Math.cos`, `Math.tan`, `Math.sinh`,
`Math.log`, `Math.sqrt`). -/
structure RealOps where
  pi : ℚ
  sin : ℚ → ℚ
  cos : ℚ → ℚ
  tan : ℚ → ℚ
  sinh : ℚ → ℚ
  log : ℚ → ℚ
  sqrt : ℚ → ℚ

/-- A trivial computable instantiation of `RealOps`, used to evaluate the
embedded code on concrete inputs. -/
def calcOps : RealOps where
  pi := 3
  sin := fun q => q
  cos := fun _ => 0
  tan := fun q => q
  sinh := fun q => q
  log := fun q => q
  sqrt := fun q => q

/-- `Math.abs`. -/
def jsAbs (q : ℚ) : ℚ := if q < 0 then -q else q

/-- `Math.max`. -/
def jsMax (a b : ℚ) : ℚ := if a ≤ b then b else a

/-- `Math.min`. -/
def jsMin (a b : ℚ) : ℚ := if a ≤ b then a else b

/-- `Math.sign`. -/
def jsSign (q : ℚ) : ℚ := if q < 0 then -1 else if q = 0 then 0 else 1

/-- JavaScript `x || d` on an optional numeric field: the default applies
when the field is `undefined` or `0` (the only falsy numbers besides NaN). -/
def jsOr (x : Option ℚ) (d : ℚ) : ℚ :=
  match x with
  | none => d
  | some v => if v = 0 then d else v

/-- `array.reduce((acc, val) => acc + val, 0)`: a left fold starting at 0. -/
def listSum (l : List ℚ) : ℚ := l.foldl (fun acc val => acc + val) 0

/-- `array.reduce((acc, val) => acc + f val, 0)`. -/
def sumBy (f : ℚ → ℚ) (l : List ℚ) : ℚ := l.foldl (fun acc val => acc + f val) 0

/-- The loop `for (i = 1; i < n; i++) s += (x[i] - x[i-1])^2` over a list:
sum of squared first differences of adjacent elements. -/
def adjSqSum : List ℚ → ℚ
  | [] => 0
  | [_] => 0
  | x :: y :: rest => (y - x) ^ 2 + adjSqSum (y :: rest)

/-- The index sequence of a JavaScript loop `for (i = 0; i < bound; i += step)`
with a positive `step` (the source only uses positive steps; a zero step
would not terminate in JavaScript and yields `[]` here). -/
def stepIndices (bound step : ℕ) : List ℕ :=
  if step = 0 then [] else (List.range ((bound + step - 1) / step)).map (· * step)

/-- Runs a stateful per-sample filter over a list (`data.map(v => filter.process(v))`):
threads the filter state left to right and collects the outputs. -/
def runFilter {σ : Type} (step : σ → ℚ → ℚ × σ) : σ → List ℚ → List ℚ × σ
  | s, [] => ([], s)
  | s, x :: xs =>
    let r := step s x
    let rest := runFilter step r.2 xs
    (r.1 :: rest.1, rest.2)

/-! ## signalFilters.ts -/

/-- `FilterType` of signalFilters.ts. -/
inductive FilterType where
  | none
  | lowpass
  | highpass
  | bandpass
  | notch
deriving DecidableEq, Repr

/-- `FilterConfig` of signalFilters.ts; optional fields are `Option`s
(`none` models an omitted / `undefined` field). -/
structure FilterConfig where
  type : FilterType
  lowCutoff : Option ℚ
  highCutoff : Option ℚ
  notchFreq : Option ℚ
  order : Option ℕ
  samplingRate : ℚ
deriving DecidableEq, Repr

/-- State of `MovingAverageFilter`: the FIFO buffer and the window size. -/
structure MovingAverageFilter where
  buffer : List ℚ
  windowSize : ℕ
deriving DecidableEq, Repr

/-- `new MovingAverageFilter(windowSize)`. -/
def mkMovingAverageFilter (windowSize : ℕ) : MovingAverageFilter :=
  ⟨[], windowSize⟩

/-- `MovingAverageFilter.process`: push the input, drop the oldest sample if
the buffer exceeds the window, return the mean of the current buffer. -/
def maStep (f : MovingAverageFilter) (input : ℚ) : ℚ × MovingAverageFilter :=
  let buf1 := f.buffer ++ [input]
  let buf2 := if f.windowSize < buf1.length then buf1.tail else buf1
  (listSum buf2 / (buf2.length : ℚ), ⟨buf2, f.windowSize⟩)

/-- `MovingAverageFilter.reset`. -/
def maReset (f : MovingAverageFilter) : MovingAverageFilter :=
  ⟨[], f.windowSize⟩

/-- State of `HighPassFilter`: previous input, previous output and the
constructed coefficient. -/
structure HighPassFilter where
  previousInput : ℚ
  previousOutput : ℚ
  alpha : ℚ
deriving DecidableEq, Repr

/-- `new HighPassFilter(cutoffFreq, samplingRate)`. -/
def mkHighPassFilter (ops : RealOps) (cutoffFreq samplingRate : ℚ) : HighPassFilter :=
  let rc := 1 / (2 * ops.pi * cutoffFreq)
  let dt := 1 / samplingRate
  ⟨0, 0, rc / (rc + dt)⟩

/-- `HighPassFilter.process`. -/
def hpStep (f : HighPassFilter) (input : ℚ) : ℚ × HighPassFilter :=
  let output := f.alpha * (f.previousOutput + input - f.previousInput)
  (output, ⟨input, output, f.alpha⟩)

/-- `HighPassFilter.reset`. -/
def hpReset (f : HighPassFilter) : HighPassFilter :=
  ⟨0, 0, f.alpha⟩

/-- State of `NotchFilter`: two inputs, two outputs of history plus the five
constructed biquad coefficients. -/
structure NotchFilter where
  x1 : ℚ
  x2 : ℚ
  y1 : ℚ
  y2 : ℚ
  a1 : ℚ
  a2 : ℚ
  b0 : ℚ
  b1 : ℚ
  b2 : ℚ
deriving DecidableEq, Repr

/-- `new NotchFilter(notchFreq, samplingRate, bandwidth)` (the source
defaults `bandwidth` to 2; callers here always pass it explicitly). -/
def mkNotchFilter (ops : RealOps) (notchFreq samplingRate bandwidth : ℚ) : NotchFilter :=
  let omega := 2 * ops.pi * notchFreq / samplingRate
  let alpha := ops.sin omega * ops.sinh (ops.log 2 / 2 * bandwidth * omega / ops.sin omega)
  let b0 : ℚ := 1
  let b1 := -2 * ops.cos omega
  let b2 : ℚ := 1
  let norm := 1 + alpha
  ⟨0, 0, 0, 0, b1 / norm, b2 / norm, b0 / norm, b1 / norm, b2 / norm⟩

/-- `NotchFilter.process`. -/
def notchStep (f : NotchFilter) (input : ℚ) : ℚ × NotchFilter :=
  let output := f.b0 * input + f.b1 * f.x1 + f.b2 * f.x2 - f.a1 * f.y1 - f.a2 * f.y2
  (output, { f with x2 := f.x1, x1 := input, y2 := f.y1, y1 := output })

/-- `NotchFilter.reset`. -/
def notchReset (f : NotchFilter) : NotchFilter :=
  { f with x1 := 0, x2 := 0, y1 := 0, y2 := 0 }

/-- The low-pass window size computed by `applyFilter`:
`Math.max(1, Math.floor(samplingRate / (highCutoff || 30) / 2))`. -/
def lowpassWindowSize (samplingRate : ℚ) (highCutoff : Option ℚ) : ℕ :=
  max 1 (Rat.floor (samplingRate / jsOr highCutoff 30 / 2)).toNat

/-- `applyFilter(data, config)` of signalFilters.ts.  `type='none'` or empty
input returns the data unchanged (the source returns a fresh copy `[...data]`,
indistinguishable from the input in this value-level model); `bandpass` runs
a high-pass and a moving-average stage per element in a single pass; the
unreachable `default` arm of the source's switch maps to the `.none` match
arm. -/
def applyFilter (ops : RealOps) (data : List ℚ) (config : FilterConfig) : List ℚ :=
  if config.type = FilterType.none ∨ data.length = 0 then data
  else
    match config.type with
    | .lowpass =>
      (runFilter maStep
        (mkMovingAverageFilter (lowpassWindowSize config.samplingRate config.highCutoff)) data).1
    | .highpass =>
      (runFilter hpStep
        (mkHighPassFilter ops (jsOr config.lowCutoff (1/2)) config.samplingRate) data).1
    | .bandpass =>
      let hpFilter := mkHighPassFilter ops (jsOr config.lowCutoff (1/2)) config.samplingRate
      let lpFilter :=
        mkMovingAverageFilter (lowpassWindowSize config.samplingRate config.highCutoff)
      (runFilter (fun s value =>
        match hpStep s.1 value with
        | (hpOutput, hp') =>
          match maStep s.2 hpOutput with
          | (lpOutput, lp') => (lpOutput, (hp', lp'))) (hpFilter, lpFilter) data).1
    | .notch =>
      (runFilter notchStep
        (mkNotchFilter ops (jsOr config.notchFreq 50) config.samplingRate 2) data).1
    | .none => data

/-- `getPresetFilterConfigs(samplingRate)` of signalFilters.ts, modelled as
an association list in the source's key order. -/
def getPresetFilterConfigs (samplingRate : ℚ) : List (String × FilterConfig) :=
  [ ("none", ⟨.none, none, none, none, none, samplingRate⟩),
    ("low-noise", ⟨.lowpass, none, some 40, none, none, samplingRate⟩),
    ("dc-remove", ⟨.highpass, some (1/2), none, none, none, samplingRate⟩),
    ("eeg-band", ⟨.bandpass, some (1/2), some 40, none, none, samplingRate⟩),
    ("notch-50hz", ⟨.notch, none, none, some 50, none, samplingRate⟩),
    ("notch-60hz", ⟨.notch, none, none, some 60, none, samplingRate⟩) ]

/-! ## advancedFilters.ts -/

/-- State of `DCBlocker`: previous input `x1`, previous output `y1` and the
constructed coefficient. -/
structure DCBlocker where
  x1 : ℚ
  y1 : ℚ
  alpha : ℚ
deriving DecidableEq, Repr

/-- `new DCBlocker(cutoffFreq, samplingRate)` (source defaults: 0.1, 250;
callers here always pass both explicitly). -/
def mkDCBlocker (ops : RealOps) (cutoffFreq samplingRate : ℚ) : DCBlocker :=
  let rc := 1 / (2 * ops.pi * cutoffFreq)
  let dt := 1 / samplingRate
  ⟨0, 0, rc / (rc + dt)⟩

/-- `DCBlocker.process`. -/
def dcStep (f : DCBlocker) (input : ℚ) : ℚ × DCBlocker :=
  let output := f.alpha * (f.y1 + input - f.x1)
  (output, ⟨input, output, f.alpha⟩)

/-- `DCBlocker.reset`. -/
def dcReset (f : DCBlocker) : DCBlocker :=
  ⟨0, 0, f.alpha⟩

/-- The four-level quality label of `assessSignalQuality`. -/
inductive Quality where
  | poor
  | fair
  | good
  | excellent
deriving DecidableEq, Repr

/-- Result record of `assessSignalQuality`. -/
structure SignalQuality where
  snr : ℚ
  artifactRatio : ℚ
  quality : Quality
deriving DecidableEq, Repr

/-- `assessSignalQuality(data)` of advancedFilters.ts: fewer than 10 samples
yields the fixed poor sentinel; otherwise SNR is the population standard
deviation of the samples over (RMS of first differences + 0.001), the
artifact ratio is the fraction of samples of magnitude above 200, and the
label comes from the fixed threshold tree. -/
def assessSignalQuality (ops : RealOps) (data : List ℚ) : SignalQuality :=
  if data.length < 10 then ⟨0, 1, .poor⟩
  else
    let n : ℚ := (data.length : ℚ)
    let mean := listSum data / n
    let signal := ops.sqrt (sumBy (fun val => (val - mean) ^ 2) data / n)
    let noise := ops.sqrt (adjSqSum data / (n - 1))
    let snr := signal / (noise + 1/1000)
    let artifacts := (data.filter fun val => 200 < jsAbs val).length
    let ratio := (artifacts : ℚ) / n
    let quality :=
      if 10 < snr ∧ ratio < 1/20 then Quality.excellent
      else if 5 < snr ∧ ratio < 1/10 then Quality.good
      else if 2 < snr ∧ ratio < 1/5 then Quality.fair
      else Quality.poor
    ⟨snr, ratio, quality⟩

/-! ## professionalFilters (the ButterworthFilter / ProfessionalFilterChain module) -/

/-- The `type` argument of `ButterworthFilter`. -/
inductive BWType where
  | lowpass
  | highpass
  | bandpass
deriving DecidableEq, Repr

/-- The `cutoff` argument of `ButterworthFilter`: `number | [number, number]`. -/
inductive BWCutoff where
  | single (c : ℚ)
  | pair (low high : ℚ)
deriving DecidableEq, Repr

/-- State of `ButterworthFilter`: coefficient vectors and input/output
history (`x` of length `b.length`, `y` of length `a.length`). -/
structure ButterworthFilter where
  a : List ℚ
  b : List ℚ
  x : List ℚ
  y : List ℚ
deriving DecidableEq, Repr

/-- `calculateLowpassCoefficients` (numerator, denominator); the `order`
argument is accepted and ignored, as in the source (always second order). -/
def calculateLowpassCoefficients (ops : RealOps) (cutoff : ℚ) (_order : ℕ) :
    List ℚ × List ℚ :=
  let c := 1 / ops.tan (ops.pi * cutoff)
  let c2 := c * c
  let sqrt2 := ops.sqrt 2
  let a0 := 1 + sqrt2 * c + c2
  (([1, 2, 1] : List ℚ).map fun v => v / a0,
   [1, (2 - 2 * c2) / a0, (1 - sqrt2 * c + c2) / a0])

/-- `calculateHighpassCoefficients` (numerator, denominator). -/
def calculateHighpassCoefficients (ops : RealOps) (cutoff : ℚ) (_order : ℕ) :
    List ℚ × List ℚ :=
  let c := ops.tan (ops.pi * cutoff)
  let c2 := c * c
  let sqrt2 := ops.sqrt 2
  let a0 := 1 + sqrt2 * c + c2
  (([1, -2, 1] : List ℚ).map fun v => v / a0,
   [1, (2 * c2 - 2) / a0, (1 - sqrt2 * c + c2) / a0])

/-- `calculateBandpassNumerator` (simplified placeholder of the source). -/
def calculateBandpassNumerator (ops : RealOps) (low high : ℚ) (_order : ℕ) : List ℚ :=
  let center := ops.sqrt (low * high)
  ([1, 0, -1] : List ℚ).map fun v => v * center

/-- `calculateBandpassDenominator` (simplified placeholder of the source). -/
def calculateBandpassDenominator (ops : RealOps) (low high : ℚ) (_order : ℕ) : List ℚ :=
  let center := ops.sqrt (low * high)
  let bandwidth := high - low
  [1, bandwidth, center * center]

/-- `new ButterworthFilter(type, cutoff, sampleRate, order)`: normalises the
cutoff(s) by the Nyquist frequency, selects the coefficient set (a bandpass
`type` with a scalar cutoff falls through to the high-pass branch exactly as
the source's `if/else` does), and zero-fills the history vectors. -/
def mkButterworthFilter (ops : RealOps) (type : BWType) (cutoff : BWCutoff)
    (sampleRate : ℚ) (order : ℕ) : ButterworthFilter :=
  let nyquist := sampleRate / 2
  let coeffs : List ℚ × List ℚ :=
    match type, cutoff with
    | .bandpass, .pair low high =>
      let lowNorm := low / nyquist
      let highNorm := high / nyquist
      (calculateBandpassNumerator ops lowNorm highNorm order,
       calculateBandpassDenominator ops lowNorm highNorm order)
    | _, _ =>
      let cutoffNorm :=
        (match cutoff with
         | .pair low _ => low
         | .single c => c) / nyquist
      match type with
      | .lowpass => calculateLowpassCoefficients ops cutoffNorm order
      | _ => calculateHighpassCoefficients ops cutoffNorm order
  ⟨coeffs.2, coeffs.1, List.replicate coeffs.1.length 0, List.replicate coeffs.2.length 0⟩

/-- `ButterworthFilter.process`: unshift the input into `x` (dropping the
oldest), accumulate `Σ b[i]·x[i] - Σ_{i≥1} a[i]·y[i]` (the source indexes the
pre-update `y` directly from 1 and never divides by `a[0]`), then unshift the
output into `y`. -/
def butterStep (f : ButterworthFilter) (input : ℚ) : ℚ × ButterworthFilter :=
  let x' := (input :: f.x).dropLast
  let feedForward := listSum (List.zipWith (fun bi xi => bi * xi) f.b x')
  let feedBack := listSum (List.zipWith (fun ai yi => ai * yi) (f.a.drop 1) (f.y.drop 1))
  let output := feedForward - feedBack
  let y' := (output :: f.y).dropLast
  (output, ⟨f.a, f.b, x', y'⟩)

/-- `ButterworthFilter.reset`: `fill(0)` on both history vectors. -/
def butterReset (f : ButterworthFilter) : ButterworthFilter :=
  ⟨f.a, f.b, List.replicate f.x.length 0, List.replicate f.y.length 0⟩

/-- State of `AdaptiveNotchFilter`: the rolling buffer plus the adapted
notch frequency and the fixed parameters. -/
structure AdaptiveNotchFilter where
  buffer : List ℚ
  notchFreq : ℚ
  bandwidth : ℚ
  sampleRate : ℚ
  alpha : ℚ
deriving DecidableEq, Repr

/-- `new AdaptiveNotchFilter(notchFreq, sampleRate, bandwidth, adaptationRate)`. -/
def mkAdaptiveNotchFilter (notchFreq sampleRate bandwidth adaptationRate : ℚ) :
    AdaptiveNotchFilter :=
  ⟨[], notchFreq, bandwidth, sampleRate, adaptationRate⟩

/-- `AdaptiveNotchFilter.estimatePowerLineFreq`: autocorrelation over lags
`1 ≤ lag < min(buffer.length / 2, 32)` (the bound is JavaScript float
division, hence the rational comparison), keeping the lag of strictly
maximal correlation starting from `(0, 1)`. -/
def estimatePowerLineFreq (f : AdaptiveNotchFilter) : ℚ :=
  let n := f.buffer.length
  if n < 16 then f.notchFreq
  else
    let lags := (List.range 33).filter fun (lag : ℕ) =>
      decide (1 ≤ lag) && decide ((lag : ℚ) < jsMin ((n : ℚ) / 2) 32)
    let best := lags.foldl (fun acc lag =>
      let correlation := listSum (((List.range n).drop lag).map fun i =>
        f.buffer.getD i 0 * f.buffer.getD (i - lag) 0)
      if acc.1 < correlation then (correlation, lag) else acc) ((0 : ℚ), (1 : ℕ))
    f.sampleRate / (best.2 : ℚ)

/-- `AdaptiveNotchFilter.process`: push into the 64-bounded buffer, pass the
input through while fewer than 8 samples are buffered; otherwise adapt the
notch frequency toward the autocorrelation estimate when within 5 Hz, compute
the biquad coefficients (of which the source's final return uses only `b1`
and `b2`) and return the source's ad hoc three-term combination. -/
def anStep (ops : RealOps) (f : AdaptiveNotchFilter) (input : ℚ) :
    ℚ × AdaptiveNotchFilter :=
  let buf1 := f.buffer ++ [input]
  let buf2 := if 64 < buf1.length then buf1.tail else buf1
  let f1 : AdaptiveNotchFilter := { f with buffer := buf2 }
  if buf2.length < 8 then (input, f1)
  else
    let estimatedFreq := estimatePowerLineFreq f1
    let nf :=
      if jsAbs (estimatedFreq - f1.notchFreq) < 5 then
        f1.notchFreq + f1.alpha * (estimatedFreq - f1.notchFreq)
      else f1.notchFreq
    let f2 := { f1 with notchFreq := nf }
    let omega := 2 * ops.pi * nf / f2.sampleRate
    let q := nf / f2.bandwidth
    let r := 1 - 3 / q
    let cosOmega := ops.cos omega
    let b1 := -2 * cosOmega
    let b2 : ℚ := 1
    -- b0 = 1, a1 = -2·r·cosOmega and a2 = r·r are computed by the source but
    -- never used by its return expression.
    let _a1 := -2 * r * cosOmega
    let _a2 := r * r
    let output := input + b1 * buf2.getD (buf2.length - 2) 0
      + b2 * buf2.getD (buf2.length - 3) 0
    (output, f2)

/-- The wavelet-type tag of `WaveletDenoiser`. -/
inductive WaveletType where
  | db4
  | haar
  | biorthogonal
deriving DecidableEq, Repr

/-- Configuration record of `WaveletDenoiser` (no mutable state). -/
structure WaveletDenoiser where
  waveletType : WaveletType
  threshold : ℚ
  levels : ℕ
deriving DecidableEq, Repr

/-- `WaveletDenoiser.process`: local-statistics soft thresholding over a
symmetric window for interior samples; edge samples pass through. -/
def wdProcess (ops : RealOps) (w : WaveletDenoiser) (data : List ℚ) : List ℚ :=
  let n := data.length
  if n < 8 then data
  else
    let windowSize := min 8 (n / 4)
    (List.range n).map fun i =>
      if windowSize ≤ i ∧ i < n - windowSize then
        let window := (data.drop (i - windowSize)).take (2 * windowSize + 1)
        let mean := listSum window / (window.length : ℚ)
        let variance :=
          window.foldl (fun acc b => acc + (b - mean) ^ 2) 0 / (window.length : ℚ)
        let std := ops.sqrt variance
        let signal := data.getD i 0 - mean
        if w.threshold * std < jsAbs signal then
          mean + jsSign signal * jsMax 0 (jsAbs signal - w.threshold * std)
        else mean
      else data.getD i 0

/-- State of `EMGEnvelopeDetector`: the embedded low-pass smoothing filter
(the rectifier is the pure `Math.abs`). -/
structure EMGEnvelopeDetector where
  smoothingFilter : ButterworthFilter
deriving DecidableEq, Repr

/-- `new EMGEnvelopeDetector(smoothingCutoff, sampleRate)`. -/
def mkEMGEnvelopeDetector (ops : RealOps) (smoothingCutoff sampleRate : ℚ) :
    EMGEnvelopeDetector :=
  ⟨mkButterworthFilter ops .lowpass (.single smoothingCutoff) sampleRate 2⟩

/-- `EMGEnvelopeDetector.process`: full-wave rectification then smoothing. -/
def emgStep (f : EMGEnvelopeDetector) (input : ℚ) : ℚ × EMGEnvelopeDetector :=
  let rectified := jsAbs input
  match butterStep f.smoothingFilter rectified with
  | (out, bf') => (out, ⟨bf'⟩)

/-- `EMGEnvelopeDetector.reset`. -/
def emgReset (f : EMGEnvelopeDetector) : EMGEnvelopeDetector :=
  ⟨butterReset f.smoothingFilter⟩

/-- State of `SpikeDetector`. -/
structure SpikeDetector where
  threshold : ℚ
  refractoryPeriod : ℚ
  sampleRate : ℚ
  lastSpikeTime : ℚ
  buffer : List ℚ
deriving DecidableEq, Repr

/-- `new SpikeDetector(threshold, refractoryPeriodMs, sampleRate)`. -/
def mkSpikeDetector (threshold refractoryPeriodMs sampleRate : ℚ) : SpikeDetector :=
  ⟨threshold, refractoryPeriodMs / 1000 * sampleRate, sampleRate, 0, []⟩

/-- `SpikeDetector.process(input, timestamp)`: 32-bounded buffer, adaptive
threshold from the trailing 16 samples, refractory-period gating. -/
def sdStep (ops : RealOps) (f : SpikeDetector) (input timestamp : ℚ) :
    (Bool × ℚ) × SpikeDetector :=
  let buf1 := f.buffer ++ [input]
  let buf2 := if 32 < buf1.length then buf1.tail else buf1
  let f1 : SpikeDetector := { f with buffer := buf2 }
  if buf2.length < 8 then ((false, 0), f1)
  else
    let recentBuffer := buf2.drop (buf2.length - 16)
    let mean := listSum recentBuffer / (recentBuffer.length : ℚ)
    let std := ops.sqrt
      (recentBuffer.foldl (fun a b => a + (b - mean) ^ 2) 0 / (recentBuffer.length : ℚ))
    let adaptiveThreshold := f1.threshold * std
    let currentValue := jsAbs (input - mean)
    if timestamp - f1.lastSpikeTime < f1.refractoryPeriod then
      ((false, currentValue), f1)
    else if adaptiveThreshold < currentValue then
      ((true, currentValue), { f1 with lastSpikeTime := timestamp })
    else ((false, currentValue), f1)

/-- State of `ProfessionalFilterChain`. -/
structure ProfessionalFilterChain where
  bandpassFilter : ButterworthFilter
  notchFilters : List AdaptiveNotchFilter
  denoiser : WaveletDenoiser
  emgDetector : Option EMGEnvelopeDetector
  spikeDetector : Option SpikeDetector
deriving DecidableEq, Repr

/-- `new ProfessionalFilterChain(lowCutoff, highCutoff, sampleRate,
powerLineFreqs, enableEMG, enableSpikes)`. -/
def mkProfessionalFilterChain (ops : RealOps) (lowCutoff highCutoff sampleRate : ℚ)
    (powerLineFreqs : List ℚ) (enableEMG enableSpikes : Bool) :
    ProfessionalFilterChain :=
  ⟨mkButterworthFilter ops .bandpass (.pair lowCutoff highCutoff) sampleRate 4,
   powerLineFreqs.map fun freq => mkAdaptiveNotchFilter freq sampleRate 2 (1/100),
   ⟨.db4, 1/10, 4⟩,
   if enableEMG then some (mkEMGEnvelopeDetector ops 10 sampleRate) else none,
   if enableSpikes then some (mkSpikeDetector (7/2) 2 sampleRate) else none⟩

/-- Result record of `ProfessionalFilterChain.process`. -/
structure ChainOutput where
  filtered : ℚ
  emgEnvelope : Option ℚ
  spike : Option (Bool × ℚ)
deriving DecidableEq, Repr

/-- `ProfessionalFilterChain.process(input, timestamp?)`: bandpass, then the
adaptive notch filters in series, then the optional EMG envelope and spike
stages (the spike stage runs only when a timestamp is supplied). -/
def chainProcess (ops : RealOps) (c : ProfessionalFilterChain) (input : ℚ)
    (timestamp : Option ℚ) : ChainOutput × ProfessionalFilterChain :=
  match butterStep c.bandpassFilter input with
  | (v, bf') =>
    let notchRes := c.notchFilters.foldl
      (fun (acc : ℚ × List AdaptiveNotchFilter) nf =>
        match anStep ops nf acc.1 with
        | (o, nf') => (o, acc.2 ++ [nf'])) (v, [])
    let output := notchRes.1
    let emgRes : Option ℚ × Option EMGEnvelopeDetector :=
      match c.emgDetector with
      | some d => match emgStep d output with
        | (o, d') => (some o, some d')
      | none => (none, none)
    let spikeRes : Option (Bool × ℚ) × Option SpikeDetector :=
      match c.spikeDetector, timestamp with
      | some d, some t => match sdStep ops d output t with
        | (sa, d') => (some sa, some d')
      | some d, none => (none, some d)
      | none, _ => (none, none)
    (⟨output, emgRes.1, spikeRes.1⟩,
     ⟨bf', notchRes.2, c.denoiser, emgRes.2, spikeRes.2⟩)

/-- `ProfessionalFilterChain.reset`: resets the bandpass filter and the EMG
detector when present; the adaptive notch filters and the spike detector are
left untouched by the source. -/
def chainReset (c : ProfessionalFilterChain) : ProfessionalFilterChain :=
  { c with bandpassFilter := butterReset c.bandpassFilter,
           emgDetector := c.emgDetector.map emgReset }

/-- The per-sample step of the chain used for whole-sequence runs (timestamp
absent, keeping only the `filtered` output as the sequence output). -/
def chainStep (ops : RealOps) (c : ProfessionalFilterChain) (input : ℚ) :
    ℚ × ProfessionalFilterChain :=
  match chainProcess ops c input none with
  | (r, c') => (r.filtered, c')

/-- The five-level recommendation of `assessProfessionalSignalQuality`. -/
inductive Recommendation where
  | excellent
  | good
  | fair
  | poor
  | unusable
deriving DecidableEq, Repr

/-- Result record `SignalQualityMetrics` of the professional assessor; the
frequency-content mapping is an association list. -/
structure SignalQualityMetrics where
  snr : ℚ
  powerLineInterference : ℚ
  artifactLevel : ℚ
  signalStability : ℚ
  frequencyContent : List (String × ℚ)
  recommendation : Recommendation
deriving DecidableEq, Repr

/-- `assessProfessionalSignalQuality(data, sampleRate)`: the fixed
`unusable` sentinel below 100 samples; otherwise variance-based SNR,
the crude windowed periodicity check for power-line interference, the 5σ
artifact level, the rolling-window stability term (whose
`varianceOfVariance` is, per the source, the arithmetic mean of the rolling
variances whenever at least two windows exist), the placeholder
frequency-content table and the compound-threshold recommendation.
The `windowMean` computed inside the power-line loop is unused by the
source.  The periodicity index `idx % Math.floor(windowSize/2)` assumes
`windowSize ≥ 2` (`sampleRate ≥ 100`), which holds for every call site. -/
def assessProfessionalSignalQuality (ops : RealOps) (data : List ℚ)
    (sampleRate : ℚ) : SignalQualityMetrics :=
  if data.length < 100 then ⟨0, 1, 1, 0, [], .unusable⟩
  else
    let n := data.length
    let nQ : ℚ := (n : ℚ)
    let mean := listSum data / nQ
    let variance := data.foldl (fun a b => a + (b - mean) ^ 2) 0 / nQ
    let std := ops.sqrt variance
    let signalPower := variance
    let noisePower := adjSqSum data / (nQ - 1)
    let snr := signalPower / (noisePower + 1/10000000000)
    let windowSize := (Rat.floor (sampleRate / 50)).toNat
    let pliHits := listSum ((stepIndices (n - windowSize) windowSize).map fun i =>
      let window := (data.drop i).take windowSize
      let periodicity := window.enum.all fun p =>
        decide (p.1 = 0) ||
        decide (jsAbs (p.2 - window.getD (p.1 % (windowSize / 2)) 0) < std * (1/2))
      if periodicity then 1 else 0)
    let powerLineInterference := pliHits / ((n / windowSize : ℕ) : ℚ)
    let artifactThreshold := 5 * std
    let artifactCount := (data.filter fun val => artifactThreshold < jsAbs (val - mean)).length
    let artifactLevel := (artifactCount : ℚ) / nQ
    let windowSize2 := 50
    let rollingVariances := (stepIndices (n - windowSize2) windowSize2).map fun i =>
      let window := (data.drop i).take windowSize2
      let windowMean := listSum window / (window.length : ℚ)
      window.foldl (fun a b => a + (b - windowMean) ^ 2) 0 / (window.length : ℚ)
    let varianceOfVariance :=
      if 1 < rollingVariances.length then
        listSum rollingVariances / (rollingVariances.length : ℚ)
      else 0
    let signalStability := 1 / (1 + varianceOfVariance / (variance + 1/10000000000))
    let frequencyContent :=
      [("delta", (1/4 : ℚ)), ("theta", 1/4), ("alpha", 1/4), ("beta", 1/4)]
    let recommendation :=
      if 15 < snr ∧ artifactLevel < 1/20 ∧ powerLineInterference < 1/10 then
        Recommendation.excellent
      else if 8 < snr ∧ artifactLevel < 1/10 ∧ powerLineInterference < 1/5 then
        Recommendation.good
      else if 4 < snr ∧ artifactLevel < 1/5 ∧ powerLineInterference < 3/10 then
        Recommendation.fair
      else if 2 < snr then Recommendation.poor
      else Recommendation.unusable
    ⟨snr, powerLineInterference, artifactLevel, signalStability, frequencyContent,
     recommendation⟩

/-! ## Specification-side definitions

These definitions follow the words of the specification's claims (not the
source) and are compared against the embedded code in the theorems below. -/

/-- Population variance of a list of samples: mean of squared deviations
from the arithmetic mean. -/
def listVariance (l : List ℚ) : ℚ :=
  let m := l.sum / (l.length : ℚ)
  ((l.map fun v => (v - m) ^ 2).sum) / (l.length : ℚ)

/-- Population standard deviation, under an abstract square root. -/
def popStdDev (ops : RealOps) (l : List ℚ) : ℚ :=
  ops.sqrt (listVariance l)

/-- The list of first differences `x[i] - x[i-1]` of a sample list. -/
def firstDiffs (l : List ℚ) : List ℚ :=
  (l.zip l.tail).map fun p => p.2 - p.1

/-- RMS of the first differences: square root of the mean of their squares. -/
def diffRMS (ops : RealOps) (l : List ℚ) : ℚ :=
  ops.sqrt (((firstDiffs l).map fun d => d ^ 2).sum / ((firstDiffs l).length : ℚ))

/-- Fraction of samples whose absolute value exceeds 200. -/
def artifactFraction (l : List ℚ) : ℚ :=
  ((l.filter fun v => 200 < jsAbs v).length : ℚ) / (l.length : ℚ)

/-- The claimed quality decision tree: `excellent` if `snr>10 ∧ ratio<0.05`;
else `good` if `snr>5 ∧ ratio<0.1`; else `fair` if `snr>2 ∧ ratio<0.2`;
else `poor`. -/
def qualityLabel (snr ratio : ℚ) : Quality :=
  if 10 < snr ∧ ratio < 1/20 then .excellent
  else if 5 < snr ∧ ratio < 1/10 then .good
  else if 2 < snr ∧ ratio < 1/5 then .fair
  else .poor

/-- The claimed result of `assessSignalQuality` on a window of at least 10
samples: `snr = popStdDev / (diffRMS + 0.001)`, the artifact fraction, and
the threshold tree applied to the two. -/
def assessSignalQualitySpec (ops : RealOps) (data : List ℚ) : SignalQuality :=
  let snr := popStdDev ops data / (diffRMS ops data + 1/1000)
  ⟨snr, artifactFraction data, qualityLabel snr (artifactFraction data)⟩

/-- The claimed high-pass coefficient: `α = rc/(rc+dt)` with
`rc = 1/(2π·cutoffHz)` and `dt = 1/samplingRate`. -/
def hpAlphaSpec (ops : RealOps) (cutoffHz samplingRate : ℚ) : ℚ :=
  let rc := 1 / (2 * ops.pi * cutoffHz)
  let dt := 1 / samplingRate
  rc / (rc + dt)

/-- The consecutive 50-sample windows of a sample list. -/
def rollingWindows50 (data : List ℚ) : List (List ℚ) :=
  (List.range (data.length / 50)).map fun k => (data.drop (50 * k)).take 50

/-- The claimed signal stability: `1 / (1 + V / (totalVariance + 1e-10))`
where `V` is the variance of the rolling 50-sample window variances. -/
def signalStabilitySpec (data : List ℚ) : ℚ :=
  1 / (1 + listVariance ((rollingWindows50 data).map listVariance)
    / (listVariance data + 1/10000000000))

/-- Concrete 10-sample window used to witness the quality-assessment
theorems. -/
def qcSamples : List ℚ := [0, 100, 0, 100, 0, 100, 0, 100, 0, 100]

/-- Concrete 150-sample alternating ±1 signal used to exhibit the
signal-stability divergence. -/
def altSamples : List ℚ := (List.range 150).map fun i => if i % 2 = 0 then 1 else -1

/-! ## Helper lemmas

The arithmetic of `ℚ` is marked `@[irreducible]` upstream, which blocks the
`decide`-based evaluation of the embedded code on concrete inputs; restoring
the default reducibility lets those closed computations reduce (the kernel
ignores reducibility annotations, so checked proofs are unaffected). -/

set_option allowUnsafeReducibility true in
attribute [semireducible] Rat.add Rat.sub Rat.mul Rat.inv Rat.ofScientific

theorem foldl_add_eq (l : List ℚ) : ∀ a : ℚ, l.foldl (fun acc val => acc + val) a = a + l.sum := by
  induction l with
  | nil => intro a; simp
  | cons x xs ih => intro a; simp [ih, add_assoc]

theorem listSum_eq_sum (l : List ℚ) : listSum l = l.sum := by
  simp [listSum, foldl_add_eq]

theorem foldl_add_by_eq (f : ℚ → ℚ) (l : List ℚ) :
    ∀ a : ℚ, l.foldl (fun acc val => acc + f val) a = a + (l.map f).sum := by
  induction l with
  | nil => intro a; simp
  | cons x xs ih => intro a; simp [ih, add_assoc]

theorem sumBy_eq_map_sum (f : ℚ → ℚ) (l : List ℚ) : sumBy f l = (l.map f).sum := by
  simp [sumBy, foldl_add_by_eq]

theorem adjSqSum_eq : ∀ l : List ℚ,
    adjSqSum l = ((l.zip l.tail).map fun p => (p.2 - p.1) ^ 2).sum
  | [] => by simp [adjSqSum]
  | [x] => by simp [adjSqSum]
  | x :: y :: rest => by
    have ih := adjSqSum_eq (y :: rest)
    simp only [adjSqSum, ih, List.tail_cons, List.zip_cons_cons, List.map_cons, List.sum_cons]

theorem runFilter_length {σ : Type} (step : σ → ℚ → ℚ × σ) (s : σ) (xs : List ℚ) :
    ((runFilter step s xs).1).length = xs.length := by
  induction xs generalizing s with
  | nil => rfl
  | cons x t ih => simp [runFilter, ih]

theorem runFilter_append {σ : Type} (step : σ → ℚ → ℚ × σ) (s : σ) (xs ys : List ℚ) :
    runFilter step s (xs ++ ys) =
      ((runFilter step s xs).1 ++ (runFilter step (runFilter step s xs).2 ys).1,
       (runFilter step (runFilter step s xs).2 ys).2) := by
  induction xs generalizing s with
  | nil => simp [runFilter]
  | cons x t ih => simp [runFilter, ih]

/-! ## Claim theorems -/

/-- Claim C4: `assessSignalQuality` applied to any array of fewer than 10
samples returns exactly `{snr: 0, artifactRatio: 1, quality: 'poor'}`. -/
theorem C4_short_input_sentinel (ops : RealOps) (data : List ℚ)
    (h : data.length < 10) :
    assessSignalQuality ops data = ⟨0, 1, Quality.poor⟩ := by
  unfold assessSignalQuality
  rw [if_pos h]

theorem C4_witness :
    ([1, 2, 3] : List ℚ).length < 10 ∧
      assessSignalQuality calcOps [1, 2, 3] = ⟨0, 1, Quality.poor⟩ :=
  ⟨by decide, C4_short_input_sentinel calcOps [1, 2, 3] (by decide)⟩

/-- Claim C6: `HighPassFilter` and `DCBlocker` built from
`(cutoffHz, samplingRate)` start from zero state with coefficient
`α = rc/(rc+dt)`, `rc = 1/(2π·cutoffHz)`, `dt = 1/samplingRate`, and each
`process` call returns `y[n] = α·(y[n-1] + x[n] - x[n-1])` while carrying
`(x[n-1], y[n-1])` forward as the new state with an unchanged coefficient. -/
theorem C6_first_order_highpass_difference_equation :
    ∀ (ops : RealOps) (cutoffHz samplingRate : ℚ),
      mkHighPassFilter ops cutoffHz samplingRate =
        ⟨0, 0, hpAlphaSpec ops cutoffHz samplingRate⟩ ∧
      mkDCBlocker ops cutoffHz samplingRate =
        ⟨0, 0, hpAlphaSpec ops cutoffHz samplingRate⟩ ∧
      (∀ (f : HighPassFilter) (x : ℚ),
        hpStep f x = (f.alpha * (f.previousOutput + x - f.previousInput),
          ⟨x, f.alpha * (f.previousOutput + x - f.previousInput), f.alpha⟩)) ∧
      (∀ (d : DCBlocker) (x : ℚ),
        dcStep d x = (d.alpha * (d.y1 + x - d.x1),
          ⟨x, d.alpha * (d.y1 + x - d.x1), d.alpha⟩)) :=
  fun _ _ _ => ⟨rfl, rfl, fun _ _ => rfl, fun _ _ => rfl⟩

/-- Claim C8: `getPresetFilterConfigs(256)['eeg-band']` equals, field for
field, `{type: 'bandpass', lowCutoff: 0.5, highCutoff: 40,
samplingRate: 256}` (the remaining optional fields absent). -/
theorem C8_eeg_band_preset :
    List.lookup "eeg-band" (getPresetFilterConfigs 256) =
      some ⟨FilterType.bandpass, some (1/2), some 40, none, none, 256⟩ := by
  decide

/-- Claim C3 counterexample: the mapping returned by
`getPresetFilterConfigs` has no `advanced-clean` key (evaluated at sampling
rate 256), so its key set is not the claimed seven-element set. -/
theorem C3_counterexample :
    ¬ ("advanced-clean" ∈ (getPresetFilterConfigs 256).map Prod.fst) := by
  decide

/-- Claim C3 as amended: for every sampling rate the key set of
`getPresetFilterConfigs` is exactly `{none, low-noise, dc-remove, eeg-band,
notch-50hz, notch-60hz}` (no `advanced-clean` entry), where `low-noise` is a
40 Hz low-pass, `dc-remove` a 0.5 Hz high-pass, `eeg-band` a 0.5–40 Hz
bandpass and the notch presets 50/60 Hz notches, all parameterized only by
the samplingRate argument. -/
theorem C3_amended_presets (r : ℚ) :
    (getPresetFilterConfigs r).map Prod.fst =
      ["none", "low-noise", "dc-remove", "eeg-band", "notch-50hz", "notch-60hz"] ∧
    List.lookup "none" (getPresetFilterConfigs r) =
      some ⟨FilterType.none, none, none, none, none, r⟩ ∧
    List.lookup "low-noise" (getPresetFilterConfigs r) =
      some ⟨FilterType.lowpass, none, some 40, none, none, r⟩ ∧
    List.lookup "dc-remove" (getPresetFilterConfigs r) =
      some ⟨FilterType.highpass, some (1/2), none, none, none, r⟩ ∧
    List.lookup "eeg-band" (getPresetFilterConfigs r) =
      some ⟨FilterType.bandpass, some (1/2), some 40, none, none, r⟩ ∧
    List.lookup "notch-50hz" (getPresetFilterConfigs r) =
      some ⟨FilterType.notch, none, none, some 50, none, r⟩ ∧
    List.lookup "notch-60hz" (getPresetFilterConfigs r) =
      some ⟨FilterType.notch, none, none, some 60, none, r⟩ :=
  ⟨rfl, rfl, rfl, rfl, rfl, rfl, rfl⟩

/-- Claim C5: for every supported `FilterConfig` type and every non-empty
input array, `applyFilter` returns an array of the same length. -/
theorem C5_applyFilter_length (ops : RealOps) (config : FilterConfig)
    (data : List ℚ) (h : data ≠ []) :
    (applyFilter ops data config).length = data.length := by
  rcases config with ⟨t, lc, hc, nf, od, sr⟩
  cases t <;>
    simp [applyFilter, runFilter_length, List.length_eq_zero, h]

theorem C5_witness :
    ([1, 2, 3] : List ℚ) ≠ [] ∧
      (applyFilter calcOps [1, 2, 3]
        ⟨FilterType.bandpass, some (1/2), some 40, none, none, 256⟩).length =
        ([1, 2, 3] : List ℚ).length :=
  ⟨by decide,
    C5_applyFilter_length calcOps
      ⟨FilterType.bandpass, some (1/2), some 40, none, none, 256⟩ [1, 2, 3]
      (by decide)⟩

theorem zipTailLengthQ (data : List ℚ) (h : 10 ≤ data.length) :
    ((data.zip data.tail).length : ℚ) = (data.length : ℚ) - 1 := by
  rw [List.length_zip, List.length_tail]
  have h1 : min data.length (data.length - 1) = data.length - 1 := by omega
  rw [h1, Nat.cast_sub (by omega)]
  simp

/-- Claim C1: on every input of at least 10 samples, `assessSignalQuality`
returns snr equal to the population standard deviation over (the RMS of
first differences + ε), the artifact ratio equal to the fraction of samples
of magnitude above 200, and the quality label given exactly by the claimed
threshold tree — i.e. it agrees with the specification-side
`assessSignalQualitySpec`. -/
theorem C1_quality_formula (ops : RealOps) (data : List ℚ) (h : 10 ≤ data.length) :
    assessSignalQuality ops data = assessSignalQualitySpec ops data := by
  have hlt : ¬ data.length < 10 := by omega
  unfold assessSignalQuality assessSignalQualitySpec popStdDev listVariance diffRMS
    firstDiffs artifactFraction qualityLabel
  rw [if_neg hlt]
  simp only [listSum_eq_sum, sumBy_eq_map_sum, adjSqSum_eq, List.map_map,
    Function.comp_def, List.length_map, zipTailLengthQ data h]

theorem C1_witness :
    10 ≤ qcSamples.length ∧
      assessSignalQuality calcOps qcSamples = assessSignalQualitySpec calcOps qcSamples :=
  ⟨by decide, C1_quality_formula calcOps qcSamples (by decide)⟩

theorem maStep_zeros : maStep ⟨[0, 0, 0, 0, 0], 5⟩ 0 = (0, ⟨[0, 0, 0, 0, 0], 5⟩) := by
  decide

theorem maRun_zeros (m : ℕ) :
    runFilter maStep ⟨[0, 0, 0, 0, 0], 5⟩ (List.replicate m 0) =
      (List.replicate m 0, ⟨[0, 0, 0, 0, 0], 5⟩) := by
  induction m with
  | zero => rfl
  | succ k ih => simp [List.replicate_succ, runFilter, maStep_zeros, ih]

theorem maStep_impulseState : maStep ⟨[1, 0, 0, 0, 0], 5⟩ 0 = (0, ⟨[0, 0, 0, 0, 0], 5⟩) := by
  decide

/-- Claim C2 counterexample: `MovingAverageFilter(5)` on the unit impulse
sequence `1,0,0,0,0,0` does not output `1/5` for each of the first five
samples (its first five outputs are the running means `1, 1/2, 1/3, 1/4,
1/5`, because `process` divides by the current buffer length during
warm-up). -/
theorem C2_counterexample :
    ¬ ((runFilter maStep (mkMovingAverageFilter 5) ([1, 0, 0, 0, 0, 0] : List ℚ)).1 =
      [1/5, 1/5, 1/5, 1/5, 1/5, 0]) := by
  decide

/-- Claim C2 as amended: `MovingAverageFilter(5)` fed the unit impulse
sequence `1,0,0,...,0` outputs the running means `1, 1/2, 1/3, 1/4, 1/5`
for the first five samples and `0` for every sample thereafter. -/
theorem C2_amended_running_mean (n : ℕ) (h : 4 ≤ n) :
    (runFilter maStep (mkMovingAverageFilter 5) (1 :: List.replicate n (0 : ℚ))).1 =
      [1, 1/2, 1/3, 1/4, 1/5] ++ List.replicate (n - 4) 0 := by
  obtain ⟨m, rfl⟩ : ∃ m, n = 4 + m := ⟨n - 4, by omega⟩
  have hsplit : (1 :: List.replicate (4 + m) (0 : ℚ)) =
      ([1, 0, 0, 0, 0] : List ℚ) ++ List.replicate m 0 := by
    rw [List.replicate_add]; rfl
  have h5 : runFilter maStep (mkMovingAverageFilter 5) ([1, 0, 0, 0, 0] : List ℚ) =
      ([1, 1/2, 1/3, 1/4, 1/5], ⟨[1, 0, 0, 0, 0], 5⟩) := by decide
  rw [hsplit, runFilter_append, h5]
  have harith : 4 + m - 4 = m := by omega
  rw [harith]
  cases m with
  | zero => simp [runFilter]
  | succ k =>
    simp [List.replicate_succ, runFilter, maStep_impulseState, maRun_zeros]

theorem C2_witness :
    4 ≤ 9 ∧
      (runFilter maStep (mkMovingAverageFilter 5) (1 :: List.replicate 9 (0 : ℚ))).1 =
        [1, 1/2, 1/3, 1/4, 1/5] ++ List.replicate (9 - 4) 0 :=
  ⟨by decide, C2_amended_running_mean 9 (by decide)⟩

/-- Claim C7: the source's `ProfessionalFilterChain.reset` resets only the
bandpass filter (and EMG detector), not the adaptive notch filters, so a
chain that processed eight samples of 1, was reset, and then processes one
more sample produces a different output than a freshly constructed chain on
the same sample — the reset-equivalence property fails on the code. -/
theorem C7_chain_reset_divergence :
    (runFilter (chainStep calcOps)
        (chainReset (runFilter (chainStep calcOps)
          (mkProfessionalFilterChain calcOps (1/2) 40 250 [50, 60] false false)
          (List.replicate 8 1)).2) [1]).1 ≠
      (runFilter (chainStep calcOps)
        (mkProfessionalFilterChain calcOps (1/2) 40 250 [50, 60] false false) [1]).1 := by
  decide

set_option maxRecDepth 100000 in
/-- Claim C9: on the 150-sample alternating ±1 input the code's
`signalStability` equals `1/(1 + M/(variance + ε))` for `M` the mean of the
rolling variances — concretely `10000000001/20000000001` — whereas the
claimed formula (variance of the rolling variances) yields `1`; the two
disagree because the source's `varianceOfVariance` computes a mean despite
its name and comment. -/
theorem C9_stability_divergence :
    (assessProfessionalSignalQuality calcOps altSamples 250).signalStability =
        10000000001 / 20000000001 ∧
      signalStabilitySpec altSamples = 1 ∧
      (assessProfessionalSignalQuality calcOps altSamples 250).signalStability ≠
        signalStabilitySpec altSamples := by
  refine ⟨by decide, by decide, by decide⟩
